import Mathlib

/-!
Shallow embedding of the pynextion protocol engine
(src/pynextion/{events,commands,widgets,device}.py) and proofs about it.

Bytes are modelled as `Nat` (each in 0..255), frames as `List Nat`.
Fallible Python code (raising exceptions) is modelled with `Except`.
-/

namespace Pynextion

/-- Modelled from the spec: `constants.py` is not part of the provided sources
(it is imported by `events.py` and `device.py`).  The spec fixes the frame
terminator `FF FF FF`, the startup sentinel `00 00 00 FF FF FF` (whose first
byte is the "invalid command" code), and the closed set of device fault codes;
the numeric values are the standard Nextion return codes. -/
inductive Code where
  | INVALID_CMD
  | CMD_FINISHED
  | INVALID_COMPONENT_ID
  | INVALID_PAGE_ID
  | INVALID_PICTURE_ID
  | INVALID_FONT_ID
  | INVALID_BAUD
  | INVALID_VARIABLE
  | INVALID_OPERATION
  | INVALID_ASSIGN
  | INVALID_EEPROM
  | INVALID_PARAMETER_QUANTITY
  -- `Return.Code.INVALID_IO` in the source, renamed here
  | INVALID_IO_OP
  | INVALID_ESC_CHAR
  | INVALID_VAR_NAME_TOO_LONG
  | EVENT_TOUCH_HEAD
  | CURRENT_PAGE_ID_HEAD
  | EVENT_POSITION_HEAD
  | EVENT_SLEEP_POSITION_HEAD
  | STRING_HEAD
  | NUMBER_HEAD
  | EVENT_LAUNCHED
  deriving DecidableEq, Repr

/-- Modelled from the spec: numeric value of each return code (`Return.Code`
in the missing `constants.py`). -/
def Code.val : Code → Nat
  | .INVALID_CMD => 0x00
  | .CMD_FINISHED => 0x01
  | .INVALID_COMPONENT_ID => 0x02
  | .INVALID_PAGE_ID => 0x03
  | .INVALID_PICTURE_ID => 0x04
  | .INVALID_FONT_ID => 0x05
  | .INVALID_BAUD => 0x11
  | .INVALID_VARIABLE => 0x1A
  | .INVALID_OPERATION => 0x1B
  | .INVALID_ASSIGN => 0x1C
  | .INVALID_EEPROM => 0x1D
  | .INVALID_PARAMETER_QUANTITY => 0x1E
  | .INVALID_IO_OP => 0x1F
  | .INVALID_ESC_CHAR => 0x20
  | .INVALID_VAR_NAME_TOO_LONG => 0x23
  | .EVENT_TOUCH_HEAD => 0x65
  | .CURRENT_PAGE_ID_HEAD => 0x66
  | .EVENT_POSITION_HEAD => 0x67
  | .EVENT_SLEEP_POSITION_HEAD => 0x68
  | .STRING_HEAD => 0x70
  | .NUMBER_HEAD => 0x71
  | .EVENT_LAUNCHED => 0x88

/-- Embeds `Return.Code(b)`: enum lookup by value; Python raises `ValueError`
(here `none`) when `b` is not a member value. -/
def Code.ofByte (b : Nat) : Option Code :=
  if b = 0x00 then some .INVALID_CMD
  else if b = 0x01 then some .CMD_FINISHED
  else if b = 0x02 then some .INVALID_COMPONENT_ID
  else if b = 0x03 then some .INVALID_PAGE_ID
  else if b = 0x04 then some .INVALID_PICTURE_ID
  else if b = 0x05 then some .INVALID_FONT_ID
  else if b = 0x11 then some .INVALID_BAUD
  else if b = 0x1A then some .INVALID_VARIABLE
  else if b = 0x1B then some .INVALID_OPERATION
  else if b = 0x1C then some .INVALID_ASSIGN
  else if b = 0x1D then some .INVALID_EEPROM
  else if b = 0x1E then some .INVALID_PARAMETER_QUANTITY
  else if b = 0x1F then some .INVALID_IO_OP
  else if b = 0x20 then some .INVALID_ESC_CHAR
  else if b = 0x23 then some .INVALID_VAR_NAME_TOO_LONG
  else if b = 0x65 then some .EVENT_TOUCH_HEAD
  else if b = 0x66 then some .CURRENT_PAGE_ID_HEAD
  else if b = 0x67 then some .EVENT_POSITION_HEAD
  else if b = 0x68 then some .EVENT_SLEEP_POSITION_HEAD
  else if b = 0x70 then some .STRING_HEAD
  else if b = 0x71 then some .NUMBER_HEAD
  else if b = 0x88 then some .EVENT_LAUNCHED
  else none

/-- Embeds `S_END_OF_CMD` from `constants.py` (fixed by the spec: `FF FF FF`). -/
def S_END_OF_CMD : List Nat := [0xFF, 0xFF, 0xFF]

/-- Embeds `Event.Touch` enum from `events.py` (`Press = 0x01`, `Release = 0x00`). -/
inductive TouchKind where
  | Press
  | Release
  deriving DecidableEq, Repr

/-- Embeds `Event.Touch(b)` value lookup; `none` models Python's `ValueError`. -/
def TouchKind.ofByte (b : Nat) : Option TouchKind :=
  if b = 0x01 then some .Press
  else if b = 0x00 then some .Release
  else none

/-- The typed exceptions of `events.py` (imported from the missing
`exceptions.py`; modelled from the spec's error taxonomy), plus Python's
built-in `ValueError` (enum conversion failure) and `NotImplementedError`. -/
inductive ParseErr where
  | endErr
  | lenErr
  | firstByteErr
  | nexMessage (code : Code)
  | notImplemented (b : Nat)
  | valueErr
  deriving DecidableEq, Repr

/-- The closed set of parsed event variants (`events.py`).  The string
payload is kept as raw bytes (Python decodes them as UTF-8). -/
inductive MsgEventT where
  | touch (code : Code) (pid cid : Nat) (press : TouchKind)
  | currentPage (code : Code) (pid : Nat)
  | position (code : Code) (x y : Nat) (t : TouchKind)
  | sleepPosition (code : Code) (x y : Nat) (t : TouchKind)
  | stringHead (code : Code) (value : List Nat)
  | numberHead (code : Code) (value : Nat) (signedValue : Int)
  | commandSucceeded
  | eventLaunched
  | startup
  | empty
  deriving DecidableEq, Repr

/-- Embeds `AbstractMsgEvent.isempty` / `EmptyMessage.isempty`. -/
def MsgEventT.isempty : MsgEventT → Bool
  | .empty => true
  | _ => false

/-- Embeds `AbstractMsgEvent.issuccess` / `EmptyMessage.issuccess`. -/
def MsgEventT.issuccess : MsgEventT → Bool
  | .empty => false
  | _ => true

/-- Embeds `has_end(msg)`: length strictly above 3 and last three bytes `FF FF FF`. -/
def has_end (msg : List Nat) : Bool :=
  decide (msg.length > 3) && decide (msg.drop (msg.length - 3) = S_END_OF_CMD)

/-- Embeds `ensure_has_end(msg)`: raise `NexMessageEndException` unless `has_end`. -/
def ensure_has_end (msg : List Nat) : Except ParseErr Unit :=
  if has_end msg then .ok () else .error .endErr

/-- Embeds `AbstractMsgEvent.ensure_has_expected_length`: when the class declares an
expected length, raise `NexMessageLengthException` on mismatch. -/
def ensure_has_expected_length (expected : Option Nat) (msg : List Nat) :
    Except ParseErr Unit :=
  match expected with
  | none => .ok ()
  | some n => if msg.length = n then .ok () else .error .lenErr

/-- Embeds `AbstractMsgEvent.ensure_has_expected_first_byte`: raise
`NexMessageFirstByteException` when the converted first byte is not the
class's canonical code. -/
def ensure_has_expected_first_byte (expectedFirstByte : Code) (code : Code) :
    Except ParseErr Unit :=
  if code = expectedFirstByte then .ok () else .error .firstByteErr

/-- Embeds `Return.Code(msg[0])` inside a variant parser: enum conversion,
`ValueError` when the byte is no code. -/
def codeOfFirstByte (msg : List Nat) : Except ParseErr Code :=
  match Code.ofByte (msg.headD 0) with
  | some c => .ok c
  | none => .error .valueErr

/-- Shared prelude of every `AbstractMsgEvent` subclass parser: check the
terminator, the expected length, convert the first byte and check it against
the canonical code — in exactly this order, as in the source. -/
def parsePrelude (expectedLength : Option Nat) (firstByte : Code)
    (msg : List Nat) : Except ParseErr Code := do
  ensure_has_end msg
  ensure_has_expected_length expectedLength msg
  let code ← codeOfFirstByte msg
  ensure_has_expected_first_byte firstByte code
  pure code

/-- Embeds `TouchEvent.parse` (EXPECTED_LENGTH 7, FIRST_BYTE EVENT_TOUCH_HEAD). -/
def TouchEvent.parse (msg : List Nat) : Except ParseErr MsgEventT := do
  let code ← parsePrelude (some 7) .EVENT_TOUCH_HEAD msg
  let pid := msg.getD 1 0
  let cid := msg.getD 2 0
  match TouchKind.ofByte (msg.getD 3 0) with
  | some tevts => pure (.touch code pid cid tevts)
  | none => .error .valueErr

/-- Embeds `CurrentPageIDHeadEvent.parse` (EXPECTED_LENGTH 5). -/
def CurrentPageIDHeadEvent.parse (msg : List Nat) : Except ParseErr MsgEventT := do
  let code ← parsePrelude (some 5) .CURRENT_PAGE_ID_HEAD msg
  pure (.currentPage code (msg.getD 1 0))

/-- Embeds `PositionHeadEvent.parse` (EXPECTED_LENGTH 9). -/
def PositionHeadEvent.parse (msg : List Nat) : Except ParseErr MsgEventT := do
  let code ← parsePrelude (some 9) .EVENT_POSITION_HEAD msg
  let x := (msg.getD 1 0) * 256 + msg.getD 2 0
  let y := (msg.getD 3 0) * 256 + msg.getD 4 0
  match TouchKind.ofByte (msg.getD 5 0) with
  | some tevts => pure (.position code x y tevts)
  | none => .error .valueErr

/-- Embeds `SleepPositionHeadEvent.parse` (EXPECTED_LENGTH 9). -/
def SleepPositionHeadEvent.parse (msg : List Nat) : Except ParseErr MsgEventT := do
  let code ← parsePrelude (some 9) .EVENT_SLEEP_POSITION_HEAD msg
  let x := (msg.getD 1 0) * 256 + msg.getD 2 0
  let y := (msg.getD 3 0) * 256 + msg.getD 4 0
  match TouchKind.ofByte (msg.getD 5 0) with
  | some tevts => pure (.sleepPosition code x y tevts)
  | none => .error .valueErr

/-- Embeds `StringHeadEvent.parse` (no fixed length; payload `msg[1:-3]`). -/
def StringHeadEvent.parse (msg : List Nat) : Except ParseErr MsgEventT := do
  let code ← parsePrelude none .STRING_HEAD msg
  pure (.stringHead code ((msg.drop 1).take (msg.length - 4)))

/-- Embeds `NumberHeadEvent.parse` (EXPECTED_LENGTH 8): little-endian 32-bit value,
with the `ctypes.c_int32` reinterpretation as a signed value. -/
def NumberHeadEvent.parse (msg : List Nat) : Except ParseErr MsgEventT := do
  let code ← parsePrelude (some 8) .NUMBER_HEAD msg
  let value := msg.getD 1 0 + (msg.getD 2 0) * 2 ^ 8 + (msg.getD 3 0) * 2 ^ 16 +
    (msg.getD 4 0) * 2 ^ 24
  let signed : Int := if value % 2 ^ 32 < 2 ^ 31 then (value % 2 ^ 32 : Nat)
    else (value % 2 ^ 32 : Nat) - (2 ^ 32 : Int)
  pure (.numberHead code value signed)

/-- Embeds `CommandSucceeded.parse` (EXPECTED_LENGTH 4). -/
def CommandSucceededEvent.parse (msg : List Nat) : Except ParseErr MsgEventT := do
  let _ ← parsePrelude (some 4) .CMD_FINISHED msg
  pure .commandSucceeded

/-- Embeds `EventLaunched.parse` (EXPECTED_LENGTH 4). -/
def EventLaunchedEvent.parse (msg : List Nat) : Except ParseErr MsgEventT := do
  let _ ← parsePrelude (some 4) .EVENT_LAUNCHED msg
  pure .eventLaunched

/-- Embeds `D_BYTE0_EVENT`: first-byte dispatch table of `MsgEvent.parse`. -/
def D_BYTE0_EVENT (b : Nat) : Option (List Nat → Except ParseErr MsgEventT) :=
  if b = Code.EVENT_LAUNCHED.val then some EventLaunchedEvent.parse
  else if b = Code.CMD_FINISHED.val then some CommandSucceededEvent.parse
  else if b = Code.EVENT_TOUCH_HEAD.val then some TouchEvent.parse
  else if b = Code.CURRENT_PAGE_ID_HEAD.val then some CurrentPageIDHeadEvent.parse
  else if b = Code.EVENT_POSITION_HEAD.val then some PositionHeadEvent.parse
  else if b = Code.EVENT_SLEEP_POSITION_HEAD.val then some SleepPositionHeadEvent.parse
  else if b = Code.STRING_HEAD.val then some StringHeadEvent.parse
  else if b = Code.NUMBER_HEAD.val then some NumberHeadEvent.parse
  else none

/-- Embeds `NEX_EXCEPTIONS`: the fault-code set of `events.py` (note it also
contains `CMD_FINISHED`, which is shadowed by the dispatch table). -/
def NEX_EXCEPTIONS : List Code :=
  [.INVALID_CMD, .CMD_FINISHED, .INVALID_COMPONENT_ID, .INVALID_PAGE_ID,
   .INVALID_PICTURE_ID, .INVALID_FONT_ID, .INVALID_BAUD, .INVALID_VARIABLE,
   .INVALID_OPERATION, .INVALID_ASSIGN, .INVALID_EEPROM,
   .INVALID_PARAMETER_QUANTITY, .INVALID_IO_OP, .INVALID_ESC_CHAR,
   .INVALID_VAR_NAME_TOO_LONG]

/-- The 6-byte startup sentinel `00 00 00 FF FF FF`. -/
def startupSentinel : List Nat := [0x00, 0x00, 0x00, 0xFF, 0xFF, 0xFF]

/-- Embeds `MsgEvent.parse`: empty input is an `EmptyMessage`; else dispatch on the
first byte; else convert it to a `Return.Code` (ValueError if unknown),
recognise the literal startup sentinel, raise `NexMessageException` on a
fault code, `NotImplementedError` otherwise. -/
def MsgEvent.parse (msg : List Nat) : Except ParseErr MsgEventT :=
  match msg with
  | [] => .ok .empty
  | first_byte :: _ =>
    match D_BYTE0_EVENT first_byte with
    | some p => p msg
    | none =>
      match Code.ofByte first_byte with
      | none => .error .valueErr
      | some code =>
        if code = .INVALID_CMD ∧ msg = startupSentinel then .ok .startup
        else if code ∈ NEX_EXCEPTIONS then .error (.nexMessage code)
        else .error (.notImplemented first_byte)

/-! ## Commands (`commands.py`) -/

/-- Embeds `CommandBase.Status`. -/
inductive Status where
  | CREATED
  | SENT
  | SUCCESSFUL
  | ERROR
  deriving DecidableEq, Repr

/-- The Qt notification signals of `CommandBase` (`successful` / `failed`),
modelled as values handed to the connected slots. -/
inductive Signal where
  | successful
  | failed
  deriving DecidableEq, Repr

/-- A Python value appearing as a command parameter or property value. -/
inductive PyVal where
  | int (n : Int)
  | str (s : String)
  | bool (b : Bool)
  deriving DecidableEq, Repr

/-- Python `str(param)` for the parameter kinds the commands use. -/
def PyVal.pyStr : PyVal → String
  | .int n => toString n
  | .str s => s
  | .bool b => if b then "True" else "False"

/-- Command kinds, standing for the `CommandBase` subclasses; what matters
to the engine is each subclass's `DATA_EVENT_CLASSES`. -/
inductive CmdKind where
  | plain
  | setProperty
  | getProperty
  | sendme
  | page
  deriving DecidableEq, Repr

/-- Embeds `DATA_EVENT_CLASSES` membership test (`isinstance(event, ...)`):
`GetPropertyCommand` accepts `StringHeadEvent`/`NumberHeadEvent`,
`SendmeCommand` accepts `CurrentPageIDHeadEvent`; the other classes leave
`DATA_EVENT_CLASSES` as `None`. -/
def CmdKind.isDataEvent : CmdKind → MsgEventT → Bool
  | .getProperty, .stringHead _ _ => true
  | .getProperty, .numberHead _ _ _ => true
  | .sendme, .currentPage _ _ => true
  | _, _ => false

/-- A `CommandBase` instance: lifecycle status, wire bytes and the stored
data event.  `owner` records which page's slots the Qt signals were
connected to (`none` when the connected slots do not touch device state). -/
structure Cmd where
  kind : CmdKind
  status : Status
  command : List Nat
  data_event : Option MsgEventT
  owner : Option Nat
  deriving DecidableEq, Repr

/-- latin1 encoding of a string: one byte per character. -/
def strToBytes (s : String) : List Nat :=
  s.toList.map Char.toNat

/-- Embeds `CommandBase.format_command`: join params with `,`, separate from the
instruction with a space (omitted when there are no params), append the
3-byte terminator, encode latin1. -/
def format_command (cmd : String) (params : List PyVal) : List Nat :=
  match params with
  | [] => strToBytes cmd ++ S_END_OF_CMD
  | _ =>
    strToBytes (cmd ++ " " ++ String.intercalate "," (params.map PyVal.pyStr))
      ++ S_END_OF_CMD

/-- Embeds `CommandBase.__init__`: status `CREATED`, encoded wire bytes, no data
event. -/
def CommandBase.make (kind : CmdKind) (cmd : String) (params : List PyVal) : Cmd :=
  { kind := kind, status := .CREATED, command := format_command cmd params,
    data_event := none, owner := none }

/-- Embeds `Command(...)`: a plain command with no data events. -/
def mkCommand (cmd : String) : Cmd :=
  CommandBase.make .plain cmd []

/-- Embeds `SetPropertyCommand.__init__`: booleans become `1`/`0`, then the command
text is `"%s.%s=%s" % (oid, name, value)` with no extra params. -/
def mkSetPropertyCommand (oid name : String) (value : PyVal) : Cmd :=
  let value : PyVal := match value with
    | .bool b => .int (if b then 1 else 0)
    | v => v
  CommandBase.make .setProperty (oid ++ "." ++ name ++ "=" ++ value.pyStr) []

/-- Embeds `GetPropertyCommand.__init__`: command text `"get %s.%s"`. -/
def mkGetPropertyCommand (oid name : String) : Cmd :=
  CommandBase.make .getProperty ("get " ++ oid ++ "." ++ name) []

/-- Embeds `SendmeCommand.__init__`. -/
def mkSendmeCommand : Cmd :=
  CommandBase.make .sendme "sendme" []

/-- Embeds `PageCommand.__init__`: command `page` with the target as parameter. -/
def mkPageCommand (target : PyVal) : Cmd :=
  CommandBase.make .page "page" [target]

/-- Embeds `CommandBase.completed`. -/
def Cmd.completed (c : Cmd) : Bool :=
  c.status = .SUCCESSFUL || c.status = .ERROR

/-- Embeds `CommandBase.send`: write the wire bytes to the transport (modelled as
appending to the write log) and move to `SENT`. -/
def Cmd.send (c : Cmd) (out : List (List Nat)) : Cmd × List (List Nat) :=
  ({ c with status := .SENT }, out ++ [c.command])

/-- Embeds `CommandBase.reset`. -/
def Cmd.reset (c : Cmd) : Cmd :=
  { c with status := .CREATED, data_event := none }

/-- Embeds `CommandBase.event`: a matching data event is stored and the command is
not completed; otherwise `CommandSucceeded` finishes it as `SUCCESSFUL`
(emitting `successful`) and any other event finishes it as `ERROR`
(emitting `failed`).  Returns the updated command, the completion flag and
the emitted signal. -/
def Cmd.event (c : Cmd) (e : MsgEventT) : Cmd × Bool × Option Signal :=
  if c.kind.isDataEvent e then
    ({ c with data_event := some e }, false, none)
  else if e = .commandSucceeded then
    ({ c with status := .SUCCESSFUL }, true, some .successful)
  else
    ({ c with status := .ERROR }, true, some .failed)

/-! ## Widgets and pages (`widgets.py`, `interfaces.py`) -/

/-- The registry errors of the missing `exceptions.py`
(`NexComponentNameException`, `NexComponentIdException`); modelled from the
spec's name/ID-uniqueness error taxonomy. -/
inductive HookErr where
  | nameErr
  | idErr
  deriving DecidableEq, Repr

/-- A hooked widget: what the engine needs is its name, its page/component
IDs and its refresh variable lists (class attributes in the source). -/
structure Widget where
  name : String
  pid : Option Nat
  cid : Option Nat
  onetimeRefreshVars : List String
  refreshVars : List String
  deriving DecidableEq, Repr

/-- Embeds `ONETIME_REFRESH_VARIABLES` per widget class of `widgets.py`:
`NexButton`/`NexText` refresh `txt`, `NexProgressBar`/`NexSlider` refresh
`val`; every other class leaves it `None`. -/
def WidgetFactory.onetimeVars (typ : String) : List String :=
  if typ = "button" ∨ typ = "text" then ["txt"]
  else if typ = "progressbar" ∨ typ = "slider" then ["val"]
  else []

/-- Embeds `REFRESH_VARIABLES` is `None` on `NexWidget` and never overridden. -/
def WidgetFactory.refreshVars (_typ : String) : List String := []

/-- Embeds `WidgetFactory.create` for a non-page widget. -/
def WidgetFactory.create (typ name : String) (pid cid : Option Nat) : Widget :=
  { name := name, pid := pid, cid := cid,
    onetimeRefreshVars := WidgetFactory.onetimeVars typ,
    refreshVars := WidgetFactory.refreshVars typ }

/-- A `NexPage`: the two insertion-ordered widget registries
(`D_WIDGETS_BY_NAME`, `D_WIDGETS_BY_CID`) and the page-switch flag. -/
structure NexPage where
  name : String
  pid : Option Nat
  widgets_by_name : List (String × Widget)
  widgets_by_cid : List (Nat × Widget)
  page_switch_in_progress : Bool
  deriving DecidableEq, Repr

/-- Embeds `NexPage.__init__` (via `WidgetFactory.create("page", name, pid)`). -/
def NexPage.mkNew (name : String) (pid : Option Nat) : NexPage :=
  { name := name, pid := pid, widgets_by_name := [], widgets_by_cid := [],
    page_switch_in_progress := false }

/-- Shared shape of the Python test `optional_id in id_dict`: a `None` key
is never present. -/
def optionKeyTaken (keys : List Nat) (k : Option Nat) : Bool :=
  match k with
  | some c => keys.contains c
  | none => false

/-- Embeds `NexPage.hook_widget`: duplicate name, then duplicate component ID, are
rejected before any mutation; otherwise the widget is added to the name map
and, when it has an ID, to the ID map. -/
def NexPage.hook_widget (pg : NexPage) (typ name : String) (cid : Option Nat) :
    Except HookErr (NexPage × Widget) :=
  if (pg.widgets_by_name.map Prod.fst).contains name then
    .error .nameErr
  else if optionKeyTaken (pg.widgets_by_cid.map Prod.fst) cid then
    .error .idErr
  else
    let w := WidgetFactory.create typ name pg.pid cid
    .ok ({ pg with
            widgets_by_name := pg.widgets_by_name ++ [(name, w)],
            widgets_by_cid := match cid with
              | some c => pg.widgets_by_cid ++ [(c, w)]
              | none => pg.widgets_by_cid }, w)

/-- Embeds `NxInterface._refresh_internal` over a variable list: one
`GetPropertyCommand` per variable, in order. -/
def refreshCommandsFor (w : Widget) (vars : List String) : List Cmd :=
  vars.map (fun v => mkGetPropertyCommand w.name v)

/-- Embeds `NexPage.onetime_refresh`: skipped while a page switch is in progress;
otherwise every widget (name-map insertion order) enqueues a get command per
`ONETIME_REFRESH_VARIABLES` entry. -/
def NexPage.onetimeRefreshCommands (pg : NexPage) : List Cmd :=
  if pg.page_switch_in_progress then []
  else (pg.widgets_by_name.map Prod.snd).flatMap
    (fun w => refreshCommandsFor w w.onetimeRefreshVars)

/-- Embeds `NexPage.refresh` (the idle-time hook): same shape over
`REFRESH_VARIABLES`. -/
def NexPage.refreshCommands (pg : NexPage) : List Cmd :=
  if pg.page_switch_in_progress then []
  else (pg.widgets_by_name.map Prod.snd).flatMap
    (fun w => refreshCommandsFor w w.refreshVars)

/-! ## Device session (`device.py`) -/

/-- Missing `exceptions.py` / Python built-ins surfacing from `poll` and
`init`: a parse exception propagating uncaught out of `poll` (the source has
no handler around `MsgEvent.parse`), Python `KeyError` from registry
lookups, and fuel exhaustion of the embedding (standing for a loop in the
source that does not terminate). -/
inductive RunErr where
  | parse (e : ParseErr)
  | keyErr
  | fuelOut
  deriving DecidableEq, Repr

/-- The `NexDevice` session state.  Pages live in `pages` (creation order,
index = identity); `pages_by_name` / `pages_by_id` are the two registry
dicts mapping to page indices, kept in insertion order as Python dicts are.
`commands` is the deque with head = front (`appendleft` side) and last
element = back (oldest, `self._commands[-1]`).  The transport is a list of
buffered incoming frames plus the log of written wire bytes; `touched`
logs the widget press/release notifications `poll` emitted. -/
structure DeviceState where
  pages : List NexPage
  pages_by_name : List (String × Nat)
  pages_by_id : List (Nat × Nat)
  current_page : Option Nat
  initialized : Bool
  commands : List Cmd
  transport_in : List (List Nat)
  transport_out : List (List Nat)
  touched : List (Nat × Nat × TouchKind)
  deriving DecidableEq, Repr

/-- Embeds `NexDevice.__init__`: empty registries, empty queues, not initialized. -/
def DeviceState.fresh : DeviceState :=
  { pages := [], pages_by_name := [], pages_by_id := [], current_page := none,
    initialized := false, commands := [], transport_in := [],
    transport_out := [], touched := [] }

/-- Association-list lookup used for the registry dicts. -/
def alistLookup {α : Type} [DecidableEq α] (l : List (α × Nat)) (k : α) :
    Option Nat :=
  match l.find? (fun p => p.fst = k) with
  | some p => some p.snd
  | none => none

/-- Embeds `NexDevice.hook_page`: duplicate name, then duplicate ID, are rejected
before any mutation; otherwise the page is appended and registered by ID
(when present) and by name, both in insertion order. -/
def DeviceState.hook_page (st : DeviceState) (name : String)
    (pid : Option Nat) : Except HookErr DeviceState :=
  if (st.pages_by_name.map Prod.fst).contains name then
    .error .nameErr
  else if optionKeyTaken (st.pages_by_id.map Prod.fst) pid then
    .error .idErr
  else
    let page := NexPage.mkNew name pid
    let idx := st.pages.length
    .ok { st with
      pages := st.pages ++ [page],
      pages_by_id := match pid with
        | some p => st.pages_by_id ++ [(p, idx)]
        | none => st.pages_by_id,
      pages_by_name := st.pages_by_name ++ [(name, idx)] }

/-- Embeds `NexDevice._on_enqueue_command`: `appendleft`. -/
def DeviceState.enqueue (st : DeviceState) (c : Cmd) : DeviceState :=
  { st with commands := c :: st.commands }

/-- Embeds `NexDevice.select_page` for a numeric ID: resolve through the chained
registry (an `int` key can only live in the ID dict), cache the page as
current and run `NexPage.show`: mark the page switch in progress and
enqueue a `PageCommand` (target = page ID when present, else its name)
whose `successful` signal is connected to that page's completion slot. -/
def DeviceState.select_page (st : DeviceState) (pid : Nat) :
    Except RunErr DeviceState :=
  match alistLookup st.pages_by_id pid with
  | none => .error .keyErr
  | some idx =>
    match st.pages.get? idx with
    | none => .error .keyErr
    | some page =>
      let page := { page with page_switch_in_progress := true }
      let target : PyVal := match page.pid with
        | none => .str page.name
        | some p => .int p
      let cmd := { mkPageCommand target with owner := some idx }
      let st := { st with pages := st.pages.set idx page,
                          current_page := some idx }
      .ok (st.enqueue cmd)

/-- The Qt slots connected to a completed command's signal.  A successful
`PageCommand` clears its owning page's switch flag
(`NexPage._on_command_successful`); a completed `SendmeCommand` updates or
clears the cached current page (`NexDevice._on_sendme_successful` /
`_on_sendme_failed`).  The widget-level slots only touch the widget's
property cache and its private bookkeeping deque, with no effect on the
session state modelled here. -/
def applyCompletionSlots (st : DeviceState) (sig : Signal) (c : Cmd) :
    DeviceState :=
  match sig with
  | .successful =>
    if c.kind = .page then
      match c.owner with
      | some idx =>
        match st.pages.get? idx with
        | some pg =>
          { st with pages :=
              st.pages.set idx { pg with page_switch_in_progress := false } }
        | none => st
      | none => st
    else if c.kind = .sendme then
      match c.data_event with
      | some (.currentPage _ pid) =>
        { st with current_page := alistLookup st.pages_by_id pid }
      | _ => st
    else st
  | .failed =>
    if c.kind = .sendme then { st with current_page := none } else st

/-- Embeds `self._commands.rotate()`: the back (rightmost) element moves to the
front. -/
def rotateCmds (l : List Cmd) : List Cmd :=
  match l.getLast? with
  | none => l
  | some x => x :: l.dropLast

/-- The response-dispatch scan of `NexDevice.poll` (the
`while self._commands:` loop): examine the back command; `CREATED` →
rotate and continue; `SENT` → feed it the event, pop it if completed, stop;
any other status → rotate and continue.  Result: the new queue plus, when a
command completed, the emitted signal with the completed command; `none`
when the loop has not finished within `fuel` iterations. -/
def dispatchScan (fuel : Nat) (cmds : List Cmd) (e : MsgEventT) :
    Option (List Cmd × Option (Signal × Cmd)) :=
  match fuel with
  | 0 => none
  | fuel + 1 =>
    match cmds.getLast? with
    | none => some (cmds, none)
    | some c =>
      if c.status = .CREATED then
        dispatchScan fuel (rotateCmds cmds) e
      else if c.status = .SENT then
        let (c', done, sig) := c.event e
        if done then
          some (cmds.dropLast, sig.map (fun s => (s, c')))
        else
          some (cmds.dropLast ++ [c'], none)
      else
        dispatchScan fuel (rotateCmds cmds) e

/-- Embeds the `TouchEvent` arm of `NexDevice.poll`'s dispatch loop:
resolve page then widget through the registries; a miss raises `KeyError`,
which the source catches and logs, so resolution is a total test. -/
def touchTargetExists (st : DeviceState) (pid cid : Nat) : Bool :=
  match alistLookup st.pages_by_id pid with
  | none => false
  | some idx =>
    match st.pages.get? idx with
    | none => false
    | some pg => (pg.widgets_by_cid.find? (fun p => p.fst = cid)).isSome

/-- Embeds the notification emission of the touch arm: the widget signal
fires exactly when page and widget resolve. -/
def dispatchTouch (st : DeviceState) (pid cid : Nat) (press : TouchKind) :
    DeviceState :=
  if touchTargetExists st pid cid then
    { st with touched := st.touched ++ [(pid, cid, press)] }
  else st

/-- Embeds the response arm of `NexDevice.poll`'s dispatch loop: run the
back-to-front scan, store the updated queue, and run the completion slots
of a completed command's emitted signal. -/
def dispatchResponse (scanFuel : Nat) (st : DeviceState) (e : MsgEventT) :
    Except RunErr DeviceState :=
  match dispatchScan scanFuel st.commands e with
  | none => .error .fuelOut
  | some (cmds', completion) =>
    let st := { st with commands := cmds' }
    match completion with
    | some (sig, c) => .ok (applyCompletionSlots st sig c)
    | none => .ok st

/-- Event dispatch of `NexDevice.poll` for one parsed event: a `TouchEvent`
goes to the touch arm, anything else is a response candidate. -/
def dispatchEvent (scanFuel : Nat) (st : DeviceState) (e : MsgEventT) :
    Except RunErr DeviceState :=
  match e with
  | .touch _ pid cid press => .ok (dispatchTouch st pid cid press)
  | _ => dispatchResponse scanFuel st e

/-- Embeds the frame-draining read loop of `NexDevice.poll`: every buffered
frame is parsed in arrival order; the first parse exception propagates
(there is no handler in the source). -/
def parseFrames : List (List Nat) → Except RunErr (List MsgEventT)
  | [] => .ok []
  | f :: rest =>
    match MsgEvent.parse f with
    | .error e => .error (.parse e)
    | .ok ev =>
      match parseFrames rest with
      | .error e => .error e
      | .ok evs => .ok (ev :: evs)

/-- Embeds the `for event in events:` dispatch loop of `NexDevice.poll`. -/
def dispatchEvents (scanFuel : Nat) :
    List MsgEventT → DeviceState → Except RunErr DeviceState
  | [], st => .ok st
  | e :: rest, st =>
    match dispatchEvent scanFuel st e with
    | .error err => .error err
    | .ok st' => dispatchEvents scanFuel rest st'

/-- Embeds the transmit step of `NexDevice.poll` (lines 251-258): if the
queue is non-empty and its back (oldest) command is still `CREATED`, send
exactly that one command; otherwise send nothing. -/
def transmitStep (st : DeviceState) : DeviceState :=
  match st.commands.getLast? with
  | some c =>
    if c.status = .CREATED then
      let (c', out') := c.send st.transport_out
      { st with commands := st.commands.dropLast ++ [c'],
                transport_out := out' }
    else st
  | none => st

/-- Embeds the idle-time refresh tail of `NexDevice.poll`: once initialized
and with an empty queue, the current page's `refresh` hooks enqueue their
get commands. -/
def idleRefreshStep (st : DeviceState) : DeviceState :=
  if st.initialized ∧ st.commands = [] then
    match st.current_page with
    | some idx =>
      match st.pages.get? idx with
      | some pg => pg.refreshCommands.foldl DeviceState.enqueue st
      | none => st
    | none => st
  else st

/-- Embeds `NexDevice.poll`: (1) drain and parse every buffered frame — a parse
exception propagates, there is no handler; (2) dispatch each event in
arrival order; (3) if the back command is `CREATED`, transmit it; (4) when
initialized and the queue is empty, run the current page's idle refresh
hooks; return whether the queue is empty. -/
def DeviceState.poll (scanFuel : Nat) (st : DeviceState) :
    Except RunErr (DeviceState × Bool) :=
  match parseFrames st.transport_in with
  | .error e => .error e
  | .ok events =>
    match dispatchEvents scanFuel events { st with transport_in := [] } with
    | .error e => .error e
    | .ok st1 =>
      let st2 := idleRefreshStep (transmitStep st1)
      .ok (st2, st2.commands = [])

/-- Embeds `NexPage.onetime_refresh` reached through `init`'s loop: enqueue the
page's one-time get commands on the device (each `send_command` emits
`enqueue_command`, i.e. `appendleft`). -/
def DeviceState.onetimeRefresh (st : DeviceState) (idx : Nat) : DeviceState :=
  match st.pages.get? idx with
  | some pg => pg.onetimeRefreshCommands.foldl DeviceState.enqueue st
  | none => st

/-- Embeds `page.hook_widget(...)` on a page previously returned by `hook_page`:
in Python the page object is shared, so the mutation is visible through the
device registry; here the updated page is written back at its index. -/
def DeviceState.hook_widget_on (st : DeviceState) (idx : Nat)
    (typ name : String) (cid : Option Nat) : Except HookErr DeviceState :=
  match st.pages.get? idx with
  | none => .error .idErr
  | some pg => do
    let (pg', _) ← pg.hook_widget typ name cid
    .ok { st with pages := st.pages.set idx pg' }

/-- Test-harness device model (not part of the source): after a poll, when
some command is in flight (`SENT`) and no response is buffered, the
simulated display acknowledges it with a `CommandSucceeded` frame
`01 FF FF FF`. -/
def respondSuccess (st : DeviceState) : DeviceState :=
  if st.commands.any (fun c => c.status = .SENT) ∧ st.transport_in = [] then
    { st with transport_in := [[0x01, 0xFF, 0xFF, 0xFF]] }
  else st

/-- The `while self._commands: self.poll()` drain loops of `NexDevice.init`,
run against the `respondSuccess` harness device. -/
def drainQueue (fuel scanFuel : Nat) (st : DeviceState) :
    Except RunErr DeviceState :=
  match fuel with
  | 0 => if st.commands = [] then .ok st else .error .fuelOut
  | fuel + 1 =>
    if st.commands = [] then .ok st
    else do
      let (st', _) ← st.poll scanFuel
      drainQueue fuel scanFuel (respondSuccess st')

/-- The per-page body of `init`'s `for page_id, page in
self._pages_by_id.items():` loop, iterating the ID dict in insertion
order: select the page, drain, run its one-time refresh, drain. -/
def initPagesLoop (fuel scanFuel : Nat) :
    List (Nat × Nat) → DeviceState → Except RunErr DeviceState
  | [], st => .ok st
  | (pid, idx) :: rest, st => do
    let st ← st.select_page pid
    let st ← drainQueue fuel scanFuel st
    let st := st.onetimeRefresh idx
    let st ← drainQueue fuel scanFuel st
    initPagesLoop fuel scanFuel rest st

/-- Modelled from the spec: `Return.Mode.ALWAYS` (always send responses)
from the missing `constants.py`; the standard `bkcmd` level is 3. -/
def ModeALWAYSval : Nat := 3

/-- Embeds `NexDevice.init` run against the `respondSuccess` harness device: flush
buffered input, enqueue `bkcmd=<ALWAYS>` and drain; for every page of the
ID registry in insertion order select it, drain, one-time refresh it,
drain; select page 0 (a `KeyError` if no page has ID 0) and drain; only
then set the initialized flag. -/
def DeviceState.init (fuel scanFuel : Nat) (st : DeviceState) :
    Except RunErr DeviceState := do
  let st := { st with transport_in := [] }
  let st := st.enqueue (mkCommand ("bkcmd=" ++ toString ModeALWAYSval))
  let st ← drainQueue fuel scanFuel st
  let st ← initPagesLoop fuel scanFuel st.pages_by_id st
  let st ← st.select_page 0
  let st ← drainQueue fuel scanFuel st
  pure { st with initialized := true }

/-! ## Claim theorems -/

/-- C8: parsing the empty byte string returns the `Empty` event (whose
`isempty` is true and whose `issuccess` is false) and never raises. -/
theorem c8_parse_empty_returns_empty :
    MsgEvent.parse [] = .ok .empty ∧
    MsgEventT.isempty .empty = true ∧
    MsgEventT.issuccess .empty = false :=
  ⟨rfl, rfl, rfl⟩

/-- C7: the exact frame `00 00 00 FF FF FF` parses as the `Startup` event,
while every other frame whose first byte is the invalid-command code (which
is never in the first-byte dispatch table) raises the generic
invalid-command protocol fault. -/
theorem c7_startup_vs_invalid_cmd :
    MsgEvent.parse startupSentinel = .ok .startup ∧
    ∀ msg : List Nat, msg.head? = some 0x00 → msg ≠ startupSentinel →
      MsgEvent.parse msg = .error (.nexMessage .INVALID_CMD) := by
  constructor
  · rfl
  · intro msg h hne
    match msg, h with
    | b :: rest, h =>
      have hb : b = 0 := by simpa using h
      subst hb
      simp [MsgEvent.parse, D_BYTE0_EVENT, Code.val, Code.ofByte,
        NEX_EXCEPTIONS, hne]

/-- C7 witness: the theorem applied to the concrete frame `00 FF FF FF`. -/
theorem c7_witness :
    MsgEvent.parse [0x00, 0xFF, 0xFF, 0xFF] =
      .error (.nexMessage .INVALID_CMD) :=
  c7_startup_vs_invalid_cmd.2 [0x00, 0xFF, 0xFF, 0xFF] rfl (by decide)

/-- C4 counterexample: the set-command encoder inserts no quotes, so for the
two-character value `Hi` the wire bytes are not the claimed
`t0.txt="Hi"` + terminator. -/
theorem c4_counterexample_no_quotes_inserted :
    (mkSetPropertyCommand "t0" "txt" (PyVal.str "Hi")).command ≠
      strToBytes "t0.txt=\"Hi\"" ++ S_END_OF_CMD := by
  decide

/-- C4 amended: encoding the set command for `t0`/`txt`/value `Hi` yields
exactly the bytes of `t0.txt=Hi` plus `FF FF FF` (latin-1, no quotes
inserted); the claimed quoted bytes arise exactly when the caller passes
the four-character value `"Hi"` that already contains the quotes. -/
theorem c4_amended_set_command_bytes :
    (mkSetPropertyCommand "t0" "txt" (PyVal.str "Hi")).command =
      strToBytes "t0.txt=Hi" ++ S_END_OF_CMD ∧
    (mkSetPropertyCommand "t0" "txt" (PyVal.str "\"Hi\"")).command =
      strToBytes "t0.txt=\"Hi\"" ++ S_END_OF_CMD := by
  constructor <;> decide

/-- C9: hooking a page whose name is already registered fails with the
name-uniqueness error, and hooking a widget whose component ID is already
taken on that page (under a fresh name) fails with the ID-uniqueness
error; both rejections happen before any registry mutation, so the
registries are unchanged (the embedding returns only the error). -/
theorem c9_registry_uniqueness :
    (∀ (st : DeviceState) (name : String) (pid : Option Nat),
       (st.pages_by_name.map Prod.fst).contains name = true →
       st.hook_page name pid = .error .nameErr) ∧
    (∀ (pg : NexPage) (typ name : String) (cid : Nat),
       (pg.widgets_by_name.map Prod.fst).contains name = false →
       (pg.widgets_by_cid.map Prod.fst).contains cid = true →
       pg.hook_widget typ name (some cid) = .error .idErr) := by
  constructor
  · intro st name pid h
    unfold DeviceState.hook_page
    rw [if_pos h]
  · intro pg typ name cid hn hc
    unfold NexPage.hook_widget
    have h1 : ¬((pg.widgets_by_name.map Prod.fst).contains name = true) := by
      rw [hn]
      decide
    have h2 : optionKeyTaken (pg.widgets_by_cid.map Prod.fst) (some cid) = true := hc
    rw [if_neg h1, if_pos h2]

/-- C9 witness state: a device owning one page `p0` (ID 0) that owns one
widget `w0` with component ID 1. -/
def c9State : DeviceState :=
  match (do
      let st ← DeviceState.fresh.hook_page "p0" (some 0)
      st.hook_widget_on 0 "text" "w0" (some 1) :
    Except HookErr DeviceState) with
  | .ok st => st
  | .error _ => DeviceState.fresh

/-- C9 witness page: page `p0` already owning widget `w0` with ID 1. -/
def c9Page : NexPage :=
  match (NexPage.mkNew "p0" (some 0)).hook_widget "text" "w0" (some 1) with
  | .ok (pg, _) => pg
  | .error _ => NexPage.mkNew "p0" (some 0)

/-- C9 witness: the theorem applied to the concrete registry states. -/
theorem c9_witness :
    c9State.hook_page "p0" none = .error .nameErr ∧
    c9Page.hook_widget "text" "w1" (some 1) = .error .idErr :=
  ⟨c9_registry_uniqueness.1 c9State "p0" none (by decide),
   c9_registry_uniqueness.2 c9Page "text" "w1" 1 (by decide) (by decide)⟩

/-- C10 failing scenario: a single still-`CREATED` command at the back of
the queue when a stray response frame is dispatched. -/
def strayScanCmd : Cmd := mkCommand "bkcmd=3"

/-- C10 failing scenario at the poll level: queue `[strayScanCmd]`, one
buffered `CommandSucceeded` frame `01 FF FF FF`. -/
def strayPollState : DeviceState :=
  { DeviceState.fresh with
      commands := [strayScanCmd],
      transport_in := [[0x01, 0xFF, 0xFF, 0xFF]] }

/-- C10: the response-dispatch scan of `poll` does not terminate when the
queue is non-empty and holds no `SENT` command — with a single `CREATED`
command it rotates in place forever (no fuel suffices), so `poll` itself
never completes on this input. -/
theorem c10_scan_never_terminates :
    (∀ fuel : Nat,
       dispatchScan fuel [strayScanCmd] .commandSucceeded = none) ∧
    (∀ scanFuel : Nat, strayPollState.poll scanFuel = .error .fuelOut) := by
  have h1 : ∀ fuel : Nat,
      dispatchScan fuel [strayScanCmd] .commandSucceeded = none := by
    intro fuel
    induction fuel with
    | zero => rfl
    | succ n ih =>
        simpa [dispatchScan, rotateCmds, strayScanCmd, mkCommand,
          CommandBase.make] using ih
  refine ⟨h1, ?_⟩
  intro scanFuel
  have hp : parseFrames strayPollState.transport_in =
      .ok [.commandSucceeded] := rfl
  have hd : dispatchEvent scanFuel
      { strayPollState with transport_in := [] } .commandSucceeded =
      .error .fuelOut := by
    simp [dispatchEvent, dispatchResponse, strayPollState, h1 scanFuel]
  simp [DeviceState.poll, hp, dispatchEvents, hd]


/-- C6 counterexample: a truncated Touch frame (leading byte selects the
Touch variant, length 3 instead of 7) raises the missing-terminator error
`NexMessageEndException`, which is neither the length error nor the
first-byte error the claim names: `ensure_has_end` runs before the length
check. -/
theorem c6_counterexample_end_error_first :
    TouchEvent.parse [0x65, 0xFF, 0xFF] = .error .endErr ∧
    ParseErr.endErr ≠ ParseErr.lenErr ∧
    ParseErr.endErr ≠ ParseErr.firstByteErr := by
  refine ⟨rfl, by decide, by decide⟩

/-- Descriptor of one fixed-length `AbstractMsgEvent` subclass: its parser,
its canonical `FIRST_BYTE` and its `EXPECTED_LENGTH`. -/
structure FixedVariant where
  parse : List Nat → Except ParseErr MsgEventT
  firstByte : Code
  expectedLength : Nat

/-- The seven fixed-length variants of `events.py` with their expected
lengths (Touch 7, CurrentPage 5, Position/SleepPosition 9, NumberValue 8,
CommandSucceeded/EventLaunched 4). -/
def fixedVariants : List FixedVariant :=
  [⟨TouchEvent.parse, .EVENT_TOUCH_HEAD, 7⟩,
   ⟨CurrentPageIDHeadEvent.parse, .CURRENT_PAGE_ID_HEAD, 5⟩,
   ⟨PositionHeadEvent.parse, .EVENT_POSITION_HEAD, 9⟩,
   ⟨SleepPositionHeadEvent.parse, .EVENT_SLEEP_POSITION_HEAD, 9⟩,
   ⟨NumberHeadEvent.parse, .NUMBER_HEAD, 8⟩,
   ⟨CommandSucceededEvent.parse, .CMD_FINISHED, 4⟩,
   ⟨EventLaunchedEvent.parse, .EVENT_LAUNCHED, 4⟩]

/-- A wrong-length frame makes the shared parser prelude fail with the
terminator error when the frame is not terminated, else the length error. -/
theorem parsePrelude_wrong_length (el : Nat) (fb : Code) (msg : List Nat)
    (h : msg.length ≠ el) :
    parsePrelude (some el) fb msg =
      .error (if has_end msg then .lenErr else .endErr) := by
  by_cases hend : has_end msg
  · simp [parsePrelude, ensure_has_end, ensure_has_expected_length, hend, h,
      Bind.bind, Except.bind]
  · simp [parsePrelude, ensure_has_end, hend, Bind.bind, Except.bind]

/-- A terminated frame of the right length whose recognised leading code is
not the canonical one makes the prelude fail with the first-byte error. -/
theorem parsePrelude_wrong_first_byte (el : Nat) (fb : Code) (msg : List Nat)
    (hend : has_end msg = true) (hlen : msg.length = el) (c : Code)
    (hc : Code.ofByte (msg.headD 0) = some c) (hne : c ≠ fb) :
    parsePrelude (some el) fb msg = .error .firstByteErr := by
  have h1 : ensure_has_end msg = .ok () := by simp [ensure_has_end, hend]
  have h2 : ensure_has_expected_length (some el) msg = .ok () := by
    simp [ensure_has_expected_length, hlen]
  have h3 : codeOfFirstByte msg = .ok c := by
    unfold codeOfFirstByte
    rw [hc]
  have h4 : ensure_has_expected_first_byte fb c = .error .firstByteErr := by
    simp [ensure_has_expected_first_byte, hne]
  simp [parsePrelude, h1, h2, h3, h4, Bind.bind, Except.bind]

/-- C6 amended: for every fixed-length variant, a frame of deviating length
raises a typed parse error — the missing-terminator error when the frame
does not end in `FF FF FF`, the length error otherwise — and a terminated,
right-length frame whose leading byte is a recognised code other than the
variant's canonical one raises the first-byte error; no event is ever
returned in these cases. -/
theorem c6_amended_fixed_length_typed_errors :
    ∀ v ∈ fixedVariants,
      (∀ msg : List Nat, msg.head? = some v.firstByte.val →
         msg.length ≠ v.expectedLength →
         v.parse msg = .error (if has_end msg then .lenErr else .endErr)) ∧
      (∀ (msg : List Nat) (c : Code), has_end msg = true →
         msg.length = v.expectedLength →
         Code.ofByte (msg.headD 0) = some c → c ≠ v.firstByte →
         v.parse msg = .error .firstByteErr) := by
  intro v hv
  simp only [fixedVariants, List.mem_cons, List.not_mem_nil, or_false] at hv
  rcases hv with h | h | h | h | h | h | h <;> subst h <;>
    refine ⟨fun msg hh hlen => ?_, fun msg c hend hlen hc hne => ?_⟩
  · have hp := parsePrelude_wrong_length 7 .EVENT_TOUCH_HEAD msg hlen
    simp [TouchEvent.parse, hp, Bind.bind, Except.bind]
  · have hp := parsePrelude_wrong_first_byte 7 .EVENT_TOUCH_HEAD msg hend hlen
      c hc hne
    simp [TouchEvent.parse, hp, Bind.bind, Except.bind]
  · have hp := parsePrelude_wrong_length 5 .CURRENT_PAGE_ID_HEAD msg hlen
    simp [CurrentPageIDHeadEvent.parse, hp, Bind.bind, Except.bind]
  · have hp := parsePrelude_wrong_first_byte 5 .CURRENT_PAGE_ID_HEAD msg hend
      hlen c hc hne
    simp [CurrentPageIDHeadEvent.parse, hp, Bind.bind, Except.bind]
  · have hp := parsePrelude_wrong_length 9 .EVENT_POSITION_HEAD msg hlen
    simp [PositionHeadEvent.parse, hp, Bind.bind, Except.bind]
  · have hp := parsePrelude_wrong_first_byte 9 .EVENT_POSITION_HEAD msg hend
      hlen c hc hne
    simp [PositionHeadEvent.parse, hp, Bind.bind, Except.bind]
  · have hp := parsePrelude_wrong_length 9 .EVENT_SLEEP_POSITION_HEAD msg hlen
    simp [SleepPositionHeadEvent.parse, hp, Bind.bind, Except.bind]
  · have hp := parsePrelude_wrong_first_byte 9 .EVENT_SLEEP_POSITION_HEAD msg
      hend hlen c hc hne
    simp [SleepPositionHeadEvent.parse, hp, Bind.bind, Except.bind]
  · have hp := parsePrelude_wrong_length 8 .NUMBER_HEAD msg hlen
    simp [NumberHeadEvent.parse, hp, Bind.bind, Except.bind]
  · have hp := parsePrelude_wrong_first_byte 8 .NUMBER_HEAD msg hend hlen
      c hc hne
    simp [NumberHeadEvent.parse, hp, Bind.bind, Except.bind]
  · have hp := parsePrelude_wrong_length 4 .CMD_FINISHED msg hlen
    simp [CommandSucceededEvent.parse, hp, Bind.bind, Except.bind]
  · have hp := parsePrelude_wrong_first_byte 4 .CMD_FINISHED msg hend hlen
      c hc hne
    simp [CommandSucceededEvent.parse, hp, Bind.bind, Except.bind]
  · have hp := parsePrelude_wrong_length 4 .EVENT_LAUNCHED msg hlen
    simp [EventLaunchedEvent.parse, hp, Bind.bind, Except.bind]
  · have hp := parsePrelude_wrong_first_byte 4 .EVENT_LAUNCHED msg hend hlen
      c hc hne
    simp [EventLaunchedEvent.parse, hp, Bind.bind, Except.bind]

/-- C6 witness: the amended theorem applied to the Touch variant, once with
a short unterminated frame, once with a terminated 7-byte frame carrying
the CurrentPage code. -/
theorem c6_witness :
    TouchEvent.parse [0x65, 0xFF, 0xFF] =
      .error (if has_end [0x65, 0xFF, 0xFF] then .lenErr else .endErr) ∧
    TouchEvent.parse [0x66, 0, 0, 0, 0xFF, 0xFF, 0xFF] =
      .error .firstByteErr :=
  ⟨(c6_amended_fixed_length_typed_errors
      ⟨TouchEvent.parse, .EVENT_TOUCH_HEAD, 7⟩
      (by simp [fixedVariants])).1 [0x65, 0xFF, 0xFF] rfl (by decide),
   (c6_amended_fixed_length_typed_errors
      ⟨TouchEvent.parse, .EVENT_TOUCH_HEAD, 7⟩
      (by simp [fixedVariants])).2 [0x66, 0, 0, 0, 0xFF, 0xFF, 0xFF]
      .CURRENT_PAGE_ID_HEAD (by decide) (by decide) (by decide) (by decide)⟩

/-- C3: a get-property command in status `SENT` fed a matching data event
(StringValue or NumberValue) stores it as `data_event`, keeps status `SENT`
and is not completed; a following `CommandSucceeded` moves it to
`SUCCESSFUL` (emitting `successful`) with the stored data event still
exposed — completing the Created→Sent→Successful path, since a fresh
get-property command is `CREATED` and `send` moves it to `SENT` — while any
other non-data final frame moves it to `ERROR` (emitting `failed`) with the
stored data event still exposed. -/
theorem c3_get_property_lifecycle (c : Cmd) (hk : c.kind = .getProperty)
    (hs : c.status = .SENT) (e : MsgEventT)
    (he : CmdKind.isDataEvent .getProperty e = true) :
    c.event e = ({ c with data_event := some e }, false, none) ∧
    ({ c with data_event := some e }).status = .SENT ∧
    ({ c with data_event := some e }).completed = false ∧
    ({ c with data_event := some e }).event .commandSucceeded =
      ({ c with data_event := some e, status := .SUCCESSFUL }, true,
        some .successful) ∧
    ({ c with data_event := some e, status := .SUCCESSFUL }).data_event =
      some e ∧
    (∀ e2 : MsgEventT, CmdKind.isDataEvent .getProperty e2 = false →
       e2 ≠ .commandSucceeded →
       ({ c with data_event := some e }).event e2 =
         ({ c with data_event := some e, status := .ERROR }, true,
           some .failed) ∧
       ({ c with data_event := some e, status := .ERROR }).data_event =
         some e) ∧
    (∀ (oid name : String) (out : List (List Nat)),
       (mkGetPropertyCommand oid name).status = .CREATED ∧
       ((mkGetPropertyCommand oid name).send out).1.status = .SENT) := by
  have hnotsucc : CmdKind.isDataEvent .getProperty .commandSucceeded = false :=
    rfl
  refine ⟨?_, by simp [hs], by simp [Cmd.completed, hs], ?_, rfl, ?_, ?_⟩
  · simp [Cmd.event, hk, he]
  · simp [Cmd.event, hk, hnotsucc]
  · intro e2 h2 hne
    refine ⟨?_, rfl⟩
    simp [Cmd.event, hk, h2, hne]
  · intro oid name out
    exact ⟨rfl, rfl⟩

/-- C3 witness: the lifecycle theorem applied to a concrete `get t0.val`
command fed a NumberValue then a CommandSucceeded frame. -/
theorem c3_witness :
    ({ mkGetPropertyCommand "t0" "val" with status := .SENT } :
        Cmd).event (.numberHead .NUMBER_HEAD 5 5) =
      ({ mkGetPropertyCommand "t0" "val" with
          status := .SENT,
          data_event := some (.numberHead .NUMBER_HEAD 5 5) }, false, none) :=
  (c3_get_property_lifecycle
    { mkGetPropertyCommand "t0" "val" with status := .SENT } rfl rfl
    (.numberHead .NUMBER_HEAD 5 5) rfl).1

/-- The thirteen device-reported fault codes named by the error-handling
design (invalid component/page/picture/font/baud/variable/operation/
assign/EEPROM/parameter-count/IO/escape-char/variable-name-length). -/
def deviceFaultCodes : List Code :=
  [.INVALID_COMPONENT_ID, .INVALID_PAGE_ID, .INVALID_PICTURE_ID,
   .INVALID_FONT_ID, .INVALID_BAUD, .INVALID_VARIABLE, .INVALID_OPERATION,
   .INVALID_ASSIGN, .INVALID_EEPROM, .INVALID_PARAMETER_QUANTITY,
   .INVALID_IO_OP, .INVALID_ESC_CHAR, .INVALID_VAR_NAME_TOO_LONG]

/-- Parsing any frame whose leading byte is one of the thirteen fault codes
raises `NexMessageException` carrying that code. -/
theorem parse_fault_code (c : Code) (hc : c ∈ deviceFaultCodes)
    (rest : List Nat) :
    MsgEvent.parse (c.val :: rest) = .error (.nexMessage c) := by
  fin_cases hc <;>
    simp [MsgEvent.parse, D_BYTE0_EVENT, Code.val, Code.ofByte,
      NEX_EXCEPTIONS, startupSentinel]

/-- C1 counterexample state: one in-flight (`SENT`) get-property command
and one buffered invalid-variable fault frame `1A FF FF FF`. -/
def c1State : DeviceState :=
  { DeviceState.fresh with
      commands := [{ mkGetPropertyCommand "t0" "val" with status := .SENT }],
      transport_in := [[0x1A, 0xFF, 0xFF, 0xFF]] }

/-- C1 counterexample: on the fault frame, `poll` raises the typed protocol
error out of the loop (the embedding's `Except.error`) instead of
completing the in-flight command with `ERROR`; no state with a completed
command and no `failed` notification is ever produced. -/
theorem c1_counterexample_fault_escapes_poll :
    c1State.poll 10 = .error (.parse (.nexMessage .INVALID_VARIABLE)) := rfl

/-- C1 amended: for every session state and every buffered frame whose
leading byte is one of the thirteen fault codes, `poll` raises the typed
protocol error (`NexMessageException` with that code) before dispatching
anything: the oldest in-flight command is not completed, its `failed`
notification does not fire, and the exception escapes the poll loop. -/
theorem c1_amended_fault_frame_raises (st : DeviceState) (c : Code)
    (tail : List Nat) (more : List (List Nat)) (scanFuel : Nat)
    (hc : c ∈ deviceFaultCodes)
    (hin : st.transport_in = (c.val :: tail) :: more) :
    st.poll scanFuel = .error (.parse (.nexMessage c)) := by
  have hp := parse_fault_code c hc tail
  unfold DeviceState.poll
  rw [hin]
  simp [parseFrames, hp]

/-- C1 witness: the amended theorem applied to the invalid-component fault
frame `02 FF FF FF` on a fresh session. -/
theorem c1_witness :
    ({ DeviceState.fresh with
        transport_in := [[0x02, 0xFF, 0xFF, 0xFF]] } : DeviceState).poll 5 =
      .error (.parse (.nexMessage .INVALID_COMPONENT_ID)) :=
  c1_amended_fault_frame_raises _ .INVALID_COMPONENT_ID [0xFF, 0xFF, 0xFF]
    [] 5 (by decide) rfl

/-- Completion slots only touch the page registry and current-page cache:
transport log, initialized flag and queue are untouched. -/
theorem applyCompletionSlots_fields (st : DeviceState) (sig : Signal)
    (c : Cmd) :
    (applyCompletionSlots st sig c).transport_out = st.transport_out ∧
    (applyCompletionSlots st sig c).initialized = st.initialized ∧
    (applyCompletionSlots st sig c).transport_in = st.transport_in := by
  unfold applyCompletionSlots
  cases sig <;> [skip; skip] <;>
    · repeat' split
      all_goals exact ⟨rfl, rfl, rfl⟩

/-- The touch arm only appends to the notification log. -/
theorem dispatchTouch_fields (st : DeviceState) (pid cid : Nat)
    (press : TouchKind) :
    (dispatchTouch st pid cid press).transport_out = st.transport_out ∧
    (dispatchTouch st pid cid press).initialized = st.initialized ∧
    (dispatchTouch st pid cid press).transport_in = st.transport_in := by
  unfold dispatchTouch
  split <;> exact ⟨rfl, rfl, rfl⟩

/-- The response arm never writes to the transport and never touches the
initialized flag. -/
theorem dispatchResponse_fields (scanFuel : Nat) (st : DeviceState)
    (e : MsgEventT) (st' : DeviceState)
    (h : dispatchResponse scanFuel st e = .ok st') :
    st'.transport_out = st.transport_out ∧
    st'.initialized = st.initialized ∧
    st'.transport_in = st.transport_in := by
  unfold dispatchResponse at h
  split at h
  · cases h
  · split at h
    · cases h
      exact applyCompletionSlots_fields _ _ _
    · cases h
      exact ⟨rfl, rfl, rfl⟩

/-- One event dispatch never writes to the transport and never touches the
initialized flag. -/
theorem dispatchEvent_fields (scanFuel : Nat) (st : DeviceState)
    (e : MsgEventT) (st' : DeviceState)
    (h : dispatchEvent scanFuel st e = .ok st') :
    st'.transport_out = st.transport_out ∧
    st'.initialized = st.initialized ∧
    st'.transport_in = st.transport_in := by
  cases e <;>
    first
      | (exact dispatchResponse_fields _ _ _ _ h)
      | (cases h; exact dispatchTouch_fields _ _ _ _)

/-- The whole dispatch loop never writes to the transport and never touches
the initialized flag. -/
theorem dispatchEvents_fields (scanFuel : Nat) (evs : List MsgEventT)
    (st st' : DeviceState)
    (h : dispatchEvents scanFuel evs st = .ok st') :
    st'.transport_out = st.transport_out ∧
    st'.initialized = st.initialized ∧
    st'.transport_in = st.transport_in := by
  induction evs generalizing st with
  | nil =>
    cases h
    exact ⟨rfl, rfl, rfl⟩
  | cons e rest ih =>
    unfold dispatchEvents at h
    split at h
    · cases h
    · rename_i st1 h1
      obtain ⟨o1, i1, t1⟩ := dispatchEvent_fields _ _ _ _ h1
      obtain ⟨o2, i2, t2⟩ := ih _ h
      exact ⟨o2.trans o1, i2.trans i1, t2.trans t1⟩

/-- Enqueuing only conses onto the queue. -/
theorem foldl_enqueue_fields (cs : List Cmd) (st : DeviceState) :
    ((cs.foldl DeviceState.enqueue st).transport_out = st.transport_out ∧
     (cs.foldl DeviceState.enqueue st).initialized = st.initialized ∧
     (cs.foldl DeviceState.enqueue st).transport_in = st.transport_in) := by
  induction cs generalizing st with
  | nil => exact ⟨rfl, rfl, rfl⟩
  | cons c rest ih =>
    simpa [List.foldl, DeviceState.enqueue] using ih (st.enqueue c)

/-- The idle refresh step only enqueues commands. -/
theorem idleRefreshStep_fields (st : DeviceState) :
    (idleRefreshStep st).transport_out = st.transport_out ∧
    (idleRefreshStep st).initialized = st.initialized ∧
    (idleRefreshStep st).transport_in = st.transport_in := by
  unfold idleRefreshStep
  split
  · cases st.current_page with
    | none => exact ⟨rfl, rfl, rfl⟩
    | some idx =>
      dsimp only
      cases st.pages.get? idx with
      | none => exact ⟨rfl, rfl, rfl⟩
      | some pg =>
        dsimp only
        exact foldl_enqueue_fields _ _
  · exact ⟨rfl, rfl, rfl⟩

/-- The transmit step writes exactly the back command's bytes when that
command is `CREATED`, and nothing otherwise; it never touches the
initialized flag. -/
theorem transmitStep_out (st : DeviceState) :
    (transmitStep st).transport_out = st.transport_out ++
      (match st.commands.getLast? with
       | some c => if c.status = .CREATED then [c.command] else []
       | none => []) ∧
    (transmitStep st).initialized = st.initialized := by
  unfold transmitStep Cmd.send
  repeat' split <;> simp

/-- C2 scenario command A, the first one enqueued. -/
def cmdA : Cmd := mkCommand "A"

/-- C2 scenario command B. -/
def cmdB : Cmd := mkCommand "B"

/-- C2 scenario command C. -/
def cmdC : Cmd := mkCommand "C"

/-- C2 scenario: A, B, C enqueued in that order on a fresh session
(queue front-to-back: C, B, A). -/
def abcDevice0 : DeviceState :=
  ((DeviceState.fresh.enqueue cmdA).enqueue cmdB).enqueue cmdC

/-- C2 scenario after one poll: A (the oldest) transmitted and `SENT`,
B and C untouched. -/
def abcDevice1 : DeviceState :=
  { abcDevice0 with
      commands := [cmdC, cmdB, { cmdA with status := .SENT }],
      transport_out := [cmdA.command] }

/-- Embeds the external scheduler: `n` successive `poll()` calls. -/
def pollIterate : Nat → DeviceState → Except RunErr DeviceState
  | 0, st => .ok st
  | n + 1, st =>
    match st.poll 1 with
    | .error e => .error e
    | .ok (st', _) => pollIterate n st'

/-- C2: a `poll` with no pending frames transmits exactly the back (oldest)
command when it is `CREATED` and nothing otherwise; under the engine's
single-in-flight discipline (a `SENT` command only ever sits at the back),
the presence of any `SENT` command means nothing is transmitted; and in the
A/B/C scenario the first poll transmits only A, after which any number of
further polls leaves the session unchanged — B and C are never transmitted
while A is in flight. -/
theorem c2_single_in_flight :
    (∀ (st : DeviceState) (scanFuel : Nat) (st' : DeviceState) (b : Bool),
       st.transport_in = [] → st.poll scanFuel = .ok (st', b) →
       st'.transport_out = st.transport_out ++
         (match st.commands.getLast? with
          | some c => if c.status = .CREATED then [c.command] else []
          | none => [])) ∧
    (∀ (st : DeviceState) (scanFuel : Nat) (st' : DeviceState) (b : Bool),
       st.transport_in = [] →
       (∃ c ∈ st.commands, c.status = .SENT) →
       (∀ c ∈ st.commands.dropLast, c.status ≠ .SENT) →
       st.poll scanFuel = .ok (st', b) →
       st'.transport_out = st.transport_out) ∧
    (∀ scanFuel : Nat,
       abcDevice0.poll scanFuel = .ok (abcDevice1, false)) ∧
    (∀ n : Nat, pollIterate n abcDevice1 = .ok abcDevice1) ∧
    abcDevice1.transport_out = [cmdA.command] ∧
    cmdB.status = .CREATED ∧ cmdC.status = .CREATED := by
  have hmain : ∀ (st : DeviceState) (scanFuel : Nat) (st' : DeviceState)
      (b : Bool), st.transport_in = [] → st.poll scanFuel = .ok (st', b) →
      st'.transport_out = st.transport_out ++
        (match st.commands.getLast? with
         | some c => if c.status = .CREATED then [c.command] else []
         | none => []) := by
    intro st scanFuel st' b hin hpoll
    unfold DeviceState.poll at hpoll
    rw [hin] at hpoll
    simp only [parseFrames, dispatchEvents] at hpoll
    rw [Except.ok.injEq, Prod.mk.injEq] at hpoll
    obtain ⟨hst, _⟩ := hpoll
    subst hst
    have hidle := idleRefreshStep_fields
      (transmitStep { st with transport_in := [] })
    have htr := transmitStep_out { st with transport_in := [] }
    exact hidle.1.trans htr.1
  refine ⟨hmain, ?_, ?_, ?_, rfl, rfl, rfl⟩
  · intro st scanFuel st' b hin hsent hdisc hpoll
    obtain ⟨c, hmem, hcs⟩ := hsent
    have hne : st.commands ≠ [] := by
      intro hnil
      rw [hnil] at hmem
      cases hmem
    have hlast : st.commands.getLast? = some (st.commands.getLast hne) :=
      List.getLast?_eq_getLast _ hne
    have hcback : c = st.commands.getLast hne := by
      have hsplit : c ∈ st.commands.dropLast ∨ c = st.commands.getLast hne := by
        have hconcat := List.dropLast_concat_getLast hne
        have : c ∈ st.commands.dropLast ++ [st.commands.getLast hne] := by
          rw [hconcat]
          exact hmem
        rcases List.mem_append.mp this with h | h
        · exact Or.inl h
        · exact Or.inr (List.mem_singleton.mp h)
      rcases hsplit with h | h
      · exact absurd hcs (hdisc c h)
      · exact h
    have hsentback : (st.commands.getLast hne).status = .SENT :=
      hcback ▸ hcs
    have h := hmain st scanFuel st' b hin hpoll
    rw [hlast] at h
    simpa [hsentback] using h
  · intro scanFuel
    rfl
  · intro n
    induction n with
    | zero => rfl
    | succ m ih =>
      have hfix : abcDevice1.poll 1 = .ok (abcDevice1, false) := rfl
      simpa [pollIterate, hfix] using ih

/-- C2 witness: the theorem's first two conjuncts applied to the concrete
A/B/C session. -/
theorem c2_witness :
    abcDevice1.transport_out = abcDevice0.transport_out ++
      (match abcDevice0.commands.getLast? with
       | some c => if c.status = .CREATED then [c.command] else []
       | none => []) ∧
    abcDevice1.transport_out = abcDevice1.transport_out :=
  ⟨c2_single_in_flight.1 abcDevice0 1 abcDevice1 false rfl
     (c2_single_in_flight.2.2.1 1),
   c2_single_in_flight.2.1 abcDevice1 1 abcDevice1 false rfl
     ⟨{ cmdA with status := .SENT }, by decide, rfl⟩ (by decide) rfl⟩

/-- C5 session with pages hooked in ascending ID order: page `p0` (ID 0,
text widget `t0`) hooked before page `p1` (ID 1, text widget `t1`). -/
def c5DeviceAsc : DeviceState :=
  match (do
      let st ← DeviceState.fresh.hook_page "p0" (some 0)
      let st ← st.hook_widget_on 0 "text" "t0" (some 1)
      let st ← st.hook_page "p1" (some 1)
      st.hook_widget_on 1 "text" "t1" (some 1) :
    Except HookErr DeviceState) with
  | .ok st => st
  | .error _ => DeviceState.fresh

/-- C5 session with the same two pages hooked in the opposite order:
`p1` (ID 1) first, then `p0` (ID 0). -/
def c5DeviceDesc : DeviceState :=
  match (do
      let st ← DeviceState.fresh.hook_page "p1" (some 1)
      let st ← st.hook_widget_on 0 "text" "t1" (some 1)
      let st ← st.hook_page "p0" (some 0)
      st.hook_widget_on 1 "text" "t0" (some 1) :
    Except HookErr DeviceState) with
  | .ok st => st
  | .error _ => DeviceState.fresh

/-- C5 counterexample: with pages hooked in the order ID 1, ID 0, `init`
selects page 1 before page 0 — the registry dict is iterated in insertion
order, not ascending ID order, so the trace differs from the one the claim
predicts. -/
theorem c5_counterexample_insertion_order_not_id_order :
    (c5DeviceDesc.init 40 10).map (fun st => st.transport_out) =
      .ok [(mkCommand "bkcmd=3").command,
           (mkPageCommand (PyVal.int 1)).command,
           (mkGetPropertyCommand "t1" "txt").command,
           (mkPageCommand (PyVal.int 0)).command,
           (mkGetPropertyCommand "t0" "txt").command,
           (mkPageCommand (PyVal.int 0)).command] ∧
    [(mkCommand "bkcmd=3").command,
     (mkPageCommand (PyVal.int 1)).command,
     (mkGetPropertyCommand "t1" "txt").command,
     (mkPageCommand (PyVal.int 0)).command,
     (mkGetPropertyCommand "t0" "txt").command,
     (mkPageCommand (PyVal.int 0)).command] ≠
    [(mkCommand "bkcmd=3").command,
     (mkPageCommand (PyVal.int 0)).command,
     (mkGetPropertyCommand "t0" "txt").command,
     (mkPageCommand (PyVal.int 1)).command,
     (mkGetPropertyCommand "t1" "txt").command,
     (mkPageCommand (PyVal.int 0)).command] :=
  ⟨rfl, by decide⟩

/-- C5 amended: against the acknowledging device model, `init` issues the
set-response-mode command first (drained), then for every registered page
in hook (insertion) order a select-page command (drained) followed by that
page's one-time refresh commands (drained), and finally a select of page 0
(drained); the initialized flag is false before `init`, true only at its
end, and no `poll` call ever sets it. -/
theorem c5_amended_init_trace :
    (c5DeviceAsc.init 40 10).map
        (fun st => (st.transport_out, st.initialized)) =
      .ok ([(mkCommand "bkcmd=3").command,
            (mkPageCommand (PyVal.int 0)).command,
            (mkGetPropertyCommand "t0" "txt").command,
            (mkPageCommand (PyVal.int 1)).command,
            (mkGetPropertyCommand "t1" "txt").command,
            (mkPageCommand (PyVal.int 0)).command], true) ∧
    (c5DeviceDesc.init 40 10).map
        (fun st => (st.transport_out, st.initialized)) =
      .ok ([(mkCommand "bkcmd=3").command,
            (mkPageCommand (PyVal.int 1)).command,
            (mkGetPropertyCommand "t1" "txt").command,
            (mkPageCommand (PyVal.int 0)).command,
            (mkGetPropertyCommand "t0" "txt").command,
            (mkPageCommand (PyVal.int 0)).command], true) ∧
    c5DeviceAsc.initialized = false ∧
    c5DeviceDesc.initialized = false ∧
    (∀ (st st' : DeviceState) (scanFuel : Nat) (b : Bool),
       st.poll scanFuel = .ok (st', b) → st'.initialized = st.initialized) := by
  refine ⟨rfl, rfl, rfl, rfl, ?_⟩
  intro st st' scanFuel b h
  unfold DeviceState.poll at h
  split at h
  · cases h
  · split at h
    · cases h
    · rename_i evs hevs st1 hst1
      rw [Except.ok.injEq, Prod.mk.injEq] at h
      obtain ⟨hst, _⟩ := h
      subst hst
      have h1 := (idleRefreshStep_fields (transmitStep st1)).2.1
      have h2 := (transmitStep_out st1).2
      have h3 := (dispatchEvents_fields _ _ _ _ hst1).2.1
      exact h1.trans (h2.trans h3)

/-- C5 witness: the poll-preservation conjunct applied to a fresh session
(whose poll is a no-op returning an empty-queue flag). -/
theorem c5_witness :
    DeviceState.fresh.poll 1 = .ok (DeviceState.fresh, true) ∧
    DeviceState.fresh.initialized = DeviceState.fresh.initialized :=
  ⟨rfl, c5_amended_init_trace.2.2.2.2 DeviceState.fresh DeviceState.fresh
     1 true rfl⟩

end Pynextion
